import Mathlib

/-
Verification of the Code_Arena_Backend error-classification and routing layer.

The development shallowly embeds the Python source:
  - app/utils/exception_handler.py : the per-kind exception handlers
    (the error classifier) and the CORS response envelope;
  - app/api/routers.py             : the /problems lookup and /submit proxy;
  - main.py                        : the CORS middleware configuration.

Python strings become Lean String, optional attributes become Option,
Python truthiness is modelled explicitly, and a handler that can itself
raise (such as indexing the result of str.splitlines on an empty string)
returns an Option, with none standing for the handler faulting.
-/

namespace CodeArena

/-- Python truthiness of a string attribute that may be absent (None) or
empty: None and the empty string are falsy, every other string truthy. -/
def truthyOpt : Option String → Bool
  | none => false
  | some s => !(s == "")

/-- Python `a if a else ...` chains on strings (the value of `a or b` when
both operands are strings, where the empty string is falsy). -/
def pyOr (a b : String) : String :=
  if a == "" then b else a

/-- The value of an optional string attribute inside an `or` chain: None
behaves exactly like the empty string (both falsy), so we collapse it. -/
def optStr : Option String → String
  | none => ""
  | some s => s

/-- Accumulator pass of pySplitlines: splits at the line boundaries used by
the diagnostics this code handles (\n, \r and \r\n; Python recognises a few
further unicode boundaries that never occur in these messages). -/
def pySplitlinesGo : List Char → List Char → List String
  | [], acc => if acc.isEmpty then [] else [String.mk acc.reverse]
  | '\r' :: '\n' :: rest, acc => String.mk acc.reverse :: pySplitlinesGo rest []
  | '\r' :: rest, acc => String.mk acc.reverse :: pySplitlinesGo rest []
  | '\n' :: rest, acc => String.mk acc.reverse :: pySplitlinesGo rest []
  | c :: rest, acc => pySplitlinesGo rest (c :: acc)

/-- Python str.splitlines. In particular the empty string yields the empty
list, so indexing the result at 0 raises IndexError in Python. -/
def pySplitlines (s : String) : List String :=
  pySplitlinesGo s.data []

/-- One capture group of the diagnostic regexes: a nonempty greedy run of
characters other than a closing parenthesis, followed by the closing
parenthesis itself. Returns the captured run and the remainder after the
parenthesis. Backtracking cannot produce any other match: the run may not
contain the parenthesis, so only the maximal run can be followed by one. -/
def scanCapture (cs : List Char) : Option (List Char × List Char) :=
  let run := cs.takeWhile (fun c => c ≠ ')')
  if run.isEmpty then none
  else
    match cs.drop run.length with
    | ')' :: rest => some (run, rest)
    | _ => none

/-- re.search for the pattern `\(<col>\)=\((?P<val>[^\)]+)\)` built by
integrity_error_handler with the column name interpolated literally (the
columns that occur here contain no regex metacharacters): try each start
position left to right, match the literal `(<col>)=(` prefix, then one
capture group. -/
def searchColAux (pat : List Char) : List Char → Option String
  | [] => none
  | c :: cs =>
    match (if pat.isPrefixOf (c :: cs) then scanCapture ((c :: cs).drop pat.length) else none) with
    | some (v, _) => some (String.mk v)
    | none => searchColAux pat cs

/-- The value extracted by integrity_error_handler's first regex from the
DETAIL text, given the structured column name. -/
def searchColVal (col : String) (s : String) : Option String :=
  searchColAux (('(' :: col.data) ++ [')', '=', '(']) s.data

/-- Attempt of the pattern `Key \((?P<field>[^)]+)\)=\((?P<value>[^)]+)\)` at
one fixed start position. -/
def matchKeyAt (cs : List Char) : Option (String × String) :=
  if ("Key (".data).isPrefixOf cs then
    match scanCapture (cs.drop 5) with
    | some (f, rest) =>
      match rest with
      | '=' :: '(' :: rest2 =>
        match scanCapture rest2 with
        | some (v, _) => some (String.mk f, String.mk v)
        | none => none
      | _ => none
    | none => none
  else none

/-- Left-to-right search loop for the `Key (<field>)=(<value>)` pattern. -/
def searchKeyAux : List Char → Option (String × String)
  | [] => none
  | c :: cs =>
    match matchKeyAt (c :: cs) with
    | some r => some r
    | none => searchKeyAux cs

/-- re.search for integrity_error_handler's fallback regex
`Key \((?P<field>[^)]+)\)=\((?P<value>[^)]+)\)` over str(orig). -/
def searchKeyFieldVal (s : String) : Option (String × String) :=
  searchKeyAux s.data

/-- The structured psycopg2 diagnostics attached to a database fault:
column_name, message_primary and message_detail may each be absent. -/
structure Diag where
  column_name : Option String
  message_primary : Option String
  message_detail : Option String
deriving DecidableEq, Repr

/-- The driver-level exception exc.orig as the handlers read it: an optional
diag object, the pgerror attribute (absent or None modelled as the empty
string, which Python treats identically under `or`), and str(orig). -/
structure Orig where
  diag : Option Diag
  pgerror : String
  s : String
deriving DecidableEq, Repr

/-- The classifier's result: an HTTP status code and the detail string
placed in the response body. -/
structure ClassifiedResponse where
  status_code : Nat
  detail : String
deriving DecidableEq, Repr

/-- The Python guard `if diag is not None and diag.column_name:` together
with the column it binds: some (d, col) exactly when the diag object is
present and its column_name is a truthy (nonempty, non-None) string. -/
def diagCol? (o : Orig) : Option (Diag × String) :=
  match o.diag with
  | some d =>
    match d.column_name with
    | some c => if c == "" then none else some (d, c)
    | none => none
  | none => none

/-- The column name alone from the structured-diagnostics guard. -/
def diagColumn (o : Orig) : Option String :=
  (diagCol? o).map (fun p => p.2)

/-- integrity_error_handler (exception_handler.py lines 92-127): structured
column name first; within that branch the DETAIL text is pgerror when
truthy, else str(orig), scanned with the first regex; without a structured
column the `Key (<field>)=(<value>)` regex runs on str(orig); the generic
fallback message only when that also fails. Always status 409. -/
def integrity_error_handler (orig : Orig) : ClassifiedResponse :=
  match diagCol? orig with
  | some (_, col) =>
    let detail := pyOr orig.pgerror orig.s
    match searchColVal col detail with
    | some val => ⟨409, col ++ " '" ++ val ++ "' already exists."⟩
    | none => ⟨409, "Duplicate value for '" ++ col ++ "'."⟩
  | none =>
    match searchKeyFieldVal orig.s with
    | some (f, v) => ⟨409, f ++ " '" ++ v ++ "' already exists."⟩
    | none => ⟨409, "A record with that value already exists."⟩

/-- data_error_handler (lines 136-162). none models the handler itself
raising IndexError at `str(orig).splitlines()[0]` when str(orig) has no
first line (the empty string). -/
def data_error_handler (orig : Orig) : Option ClassifiedResponse :=
  match diagCol? orig with
  | some (d, col) =>
    let msg := pyOr (optStr d.message_primary) (optStr d.message_detail)
    if msg == "" then some ⟨422, "Invalid data for column '" ++ col ++ "'."⟩
    else some ⟨422, "Invalid data for '" ++ col ++ "': " ++ msg⟩
  | none =>
    match (pySplitlines orig.s).head? with
    | none => none
    | some raw => some ⟨422, pyOr raw "Invalid data format."⟩

/-- operational_error_handler (lines 171-191). The diag branch never indexes
a list; the diag-less branch indexes splitlines and can raise (none). -/
def operational_error_handler (orig : Orig) : Option ClassifiedResponse :=
  match orig.diag with
  | some d =>
    let msg := pyOr (optStr d.message_primary) (pyOr (optStr d.message_detail) orig.s)
    some ⟨503, "Database connection error: " ++ msg⟩
  | none =>
    match (pySplitlines orig.s).head? with
    | none => none
    | some raw => some ⟨503, "Database connection error: " ++ raw⟩

/-- programming_error_handler (lines 200-224): a primary/detail message from
diag gives the first line of that message; when the resulting detail is
falsy the handler indexes str(orig).splitlines(), which raises (none) on an
empty str(orig). -/
def programming_error_handler (orig : Orig) : Option ClassifiedResponse :=
  let detail0? : Option String :=
    match orig.diag with
    | some d =>
      let msg := pyOr (optStr d.message_primary) (optStr d.message_detail)
      if msg == "" then some "" else (pySplitlines msg).head?
    | none => some ""
  match detail0? with
  | none => none
  | some detail0 =>
    if detail0 == "" then
      match (pySplitlines orig.s).head? with
      | none => none
      | some raw => some ⟨500, "Database query error: " ++ raw⟩
    else some ⟨500, "Database query error: " ++ detail0⟩

/-- interface_error_handler (lines 233-253): same shape as the operational
handler with a different message prefix and the same splitlines indexing in
the diag-less branch. -/
def interface_error_handler (orig : Orig) : Option ClassifiedResponse :=
  match orig.diag with
  | some d =>
    let msg := pyOr (optStr d.message_primary) (pyOr (optStr d.message_detail) orig.s)
    some ⟨503, "Database interface error: " ++ msg⟩
  | none =>
    match (pySplitlines orig.s).head? with
    | none => none
    | some raw => some ⟨503, "Database interface error: " ++ raw⟩

/-- Python str.strip() on the whitespace characters Python strips (space,
tab, newline, carriage return, vertical tab, form feed). -/
def pyIsSpace (c : Char) : Bool :=
  c == ' ' || c == '\t' || c == '\n' || c == '\r' || c == '\x0b' || c == '\x0c'

/-- Python str.strip(): drop leading and trailing whitespace. -/
def pyStrip (s : String) : String :=
  String.mk (((s.data.dropWhile pyIsSpace).reverse.dropWhile pyIsSpace).reverse)

/-- database_exception_handler (lines 68-83): the rollback of the write
session is attempted inside its own try block; a failing rollback is only
logged. The first component records the log emission of the rollback
branch, the second the response handed to the caller. -/
def database_exception_handler (rollback : Except String Unit) : List String × ClassifiedResponse :=
  let logs :=
    match rollback with
    | .ok _ => []
    | .error m => ["Error during session rollback: " ++ m]
  (logs, ⟨500, "A database error occurred. Please try again later."⟩)

/-- jwt_error_handler (lines 393-410): expired tokens and all other JWT
faults both map to 401, with distinct messages. -/
def jwt_error_handler (expired : Bool) : ClassifiedResponse :=
  if expired then ⟨401, "Authentication token has expired. Please log in again."⟩
  else ⟨401, "Invalid authentication token. Please provide a valid token."⟩

/-- The faults the application can raise, one constructor per Python
exception class that owns a registered handler, plus httpStatusError for
httpx.HTTPStatusError (raised by response.raise_for_status in the proxy
routes; no handler is registered for it or any of its superclasses other
than Exception) and otherException for every remaining exception (such as
the KeyError from indexing a record without an id). jwtError true is
ExpiredSignatureError, jwtError false any other JWTError. -/
inductive Exc where
  | requestValidation
  | httpException (status : Nat) (detail : String)
  | integrityError (orig : Orig)
  | dataError (orig : Orig)
  | operationalError (orig : Orig)
  | programmingError (orig : Orig)
  | interfaceError (orig : Orig)
  | sqlalchemyOther (orig : Orig)
  | timeoutError
  | permissionError (msg : String)
  | jwtError (expired : Bool)
  | jsonDecodeError (lineno colno : Nat) (msg : String)
  | valueError (msg : String)
  | typeError (msg : String)
  | httpStatusError (status : Nat)
  | otherException
deriving DecidableEq, Repr

/-- Whether a fault is a FastAPI HTTPException, the kind whose status and
detail pass through verbatim. -/
def isHTTPException : Exc → Bool
  | .httpException _ _ => true
  | _ => false

/-- The central dispatch of exception_handler.py: Starlette walks the
exception class hierarchy and runs the handler registered for the most
specific class, so each specific SQLAlchemy subclass reaches its own
handler and only a plain SQLAlchemyError reaches the generic database
handler (which needs the rollback outcome). httpx.HTTPStatusError and
every other unregistered class fall to the Exception catch-all handler
(lines 375-384). none models the chosen handler itself raising. -/
def classify (rollback : Except String Unit) : Exc → Option ClassifiedResponse
  | .requestValidation => some ⟨422, "Invalid request format"⟩
  | .httpException st d => some ⟨st, d⟩
  | .integrityError o => some (integrity_error_handler o)
  | .dataError o => data_error_handler o
  | .operationalError o => operational_error_handler o
  | .programmingError o => programming_error_handler o
  | .interfaceError o => interface_error_handler o
  | .sqlalchemyOther _ => some (database_exception_handler rollback).2
  | .timeoutError => some ⟨504, "Request processing timed out. Please try again later."⟩
  | .permissionError m => some ⟨403, pyOr m "You do not have permission to perform this action."⟩
  | .jwtError e => some (jwt_error_handler e)
  | .jsonDecodeError l c m =>
      some ⟨400, "Invalid JSON at line " ++ toString l ++ ", column " ++ toString c ++ ": " ++ m⟩
  | .valueError m => some ⟨400, pyOr (pyStrip m) "Invalid value provided."⟩
  | .typeError m => some ⟨400, pyOr (pyStrip m) "Invalid data type provided. Please check your input format."⟩
  | .httpStatusError _ => some ⟨500, "An unexpected error occurred. Please contact support."⟩
  | .otherException => some ⟨500, "An unexpected error occurred. Please contact support."⟩

/-
JSON values and the /problems routes (app/api/routers.py).
-/

mutual

/-- A JSON value as json.load produces it. The problem records only carry
integer ids, so numbers are modelled as integers. Arrays and objects carry
their own list types so that equality stays derivably decidable. -/
inductive JValue where
  | null
  | bool (b : Bool)
  | num (n : Int)
  | str (s : String)
  | arr (xs : JArray)
  | obj (fields : JFields)
deriving DecidableEq, Repr

/-- The elements of a JSON array. -/
inductive JArray where
  | nil
  | cons (hd : JValue) (tl : JArray)
deriving DecidableEq, Repr

/-- The key-value bindings of a JSON object, in file order. -/
inductive JFields where
  | nil
  | cons (k : String) (v : JValue) (tl : JFields)
deriving DecidableEq, Repr

end

/-- First binding of a key among a JSON object's fields (json.load keeps
one binding per key, the last in the text, so first here is unambiguous). -/
def lookupFields : JFields → String → Option JValue
  | .nil, _ => none
  | .cons k0 v rest, k => if k0 == k then some v else lookupFields rest k

/-- Python subscripting p[k] on a JSON value: defined only on objects that
carry the key; anywhere else Python raises KeyError or TypeError, modelled
as none. -/
def lookup : JValue → String → Option JValue
  | .obj fields, k => lookupFields fields k
  | _, _ => none

/-- Python truthiness of a JSON value: None, False, 0, the empty string,
the empty list and the empty dict are falsy. -/
def pyTruthy : JValue → Bool
  | .null => false
  | .bool b => b
  | .num n => !(n == 0)
  | .str s => !(s == "")
  | .arr .nil => false
  | .arr (.cons _ _) => true
  | .obj .nil => false
  | .obj (.cons _ _ _) => true

/-- Python equality of a JSON value against an int (the comparison
p[id] == problem_id): ints compare numerically, True equals 1 and False
equals 0, every other JSON type compares unequal without raising. -/
def pyEqInt : JValue → Int → Bool
  | .num n, pid => n == pid
  | .bool b, pid => (if b then (1 : Int) else 0) == pid
  | _, _ => false

/-- The generator filter of get_problem (routers.py line 43): whether a
record's id subscript both succeeds and equals the requested id. -/
def idMatches (pid : Int) (p : JValue) : Bool :=
  match lookup p "id" with
  | some v => pyEqInt v pid
  | none => false

/-- Whether a record supports the id subscript at all. -/
def hasId (p : JValue) : Bool :=
  (lookup p "id").isSome

/-- next((p for p in problems if p[id] == problem_id), None): walk the list
in file order; the first record whose subscript raises aborts the whole
generator (error), otherwise the first match is returned, or none. -/
def findProblem (pid : Int) : List JValue → Except Unit (Option JValue)
  | [] => .ok none
  | p :: ps =>
    match lookup p "id" with
    | none => .error ()
    | some v => if pyEqInt v pid then .ok (some p) else findProblem pid ps

/-- An HTTP response of a route: status code and JSON body (FastAPI returns
a plain dict with status 200). -/
structure RouteResponse where
  status : Nat
  body : JValue
deriving DecidableEq, Repr

/-- The not-found body of get_problem. -/
def problemNotFoundBody : JValue :=
  .obj (.cons "error" (.str "Problem not found") .nil)

/-- The body with one detail field of a classified error response. -/
def detailBody (c : ClassifiedResponse) : JValue :=
  .obj (.cons "detail" (.str c.detail) .nil)

/-- A fault escaping a route (routers.py re-raises every exception) as the
client sees it after central dispatch; a handler that itself raises leaves
Starlette's bare 500 response. -/
def routeFault (rollback : Except String Unit) (e : Exc) : RouteResponse :=
  match classify rollback e with
  | some c => ⟨c.status_code, detailBody c⟩
  | none => ⟨500, .str "Internal Server Error"⟩

/-- get_problem (routers.py lines 35-49) including the dispatch of an
escaped fault: a failed subscript becomes a KeyError/TypeError, which no
specific handler matches (otherException); a found record is returned as
the body unless falsy, in which case, as for no match at all, the
not-found body is returned - always with status 200. -/
def get_problem (problems : List JValue) (pid : Int) : RouteResponse :=
  match findProblem pid problems with
  | .error _ => routeFault (.ok ()) .otherException
  | .ok none => ⟨200, problemNotFoundBody⟩
  | .ok (some p) => if pyTruthy p then ⟨200, p⟩ else ⟨200, problemNotFoundBody⟩

/-- httpx Response.raise_for_status: succeeds exactly on 2xx, otherwise
raises httpx.HTTPStatusError carrying the response. -/
def raise_for_status (status : Nat) : Except Exc Unit :=
  if 200 ≤ status ∧ status ≤ 299 then .ok () else .error (.httpStatusError status)

/-- submit_code (routers.py lines 51-80) as the client sees it, abstracted
over the upstream judge's reply: on a 2xx upstream status the upstream
JSON body is returned with status 200; otherwise raise_for_status raises
and the fault goes through central dispatch. -/
def submit_code (upstreamStatus : Nat) (upstreamBody : JValue) : RouteResponse :=
  match raise_for_status upstreamStatus with
  | .ok _ => ⟨200, upstreamBody⟩
  | .error e => routeFault (.ok ()) e

/-
The response envelope (json_response_with_cors) and the CORS middleware
configuration of main.py.
-/

/-- A full HTTP response with headers for the envelope claims. -/
structure HttpResponse where
  status : Nat
  body : JValue
  headers : List (String × String)
deriving DecidableEq, Repr

/-- json_response_with_cors (exception_handler.py lines 18-26): every
classified error response is built here, with both CORS headers fixed. -/
def json_response_with_cors (content : JValue) (status_code : Nat) : HttpResponse :=
  ⟨status_code, content,
    [("Access-Control-Allow-Origin", "*"), ("Access-Control-Allow-Credentials", "true")]⟩

/-- The CORSMiddleware configuration main.py lines 33-39 registers. -/
structure CORSConfig where
  allow_origins : List String
  allow_credentials : Bool
  allow_methods : List String
  allow_headers : List String
deriving DecidableEq, Repr

/-- The concrete configuration from main.py: all origins, credentials on,
all methods, all headers. -/
def appCORSConfig : CORSConfig :=
  ⟨["*"], true, ["*"], ["*"]⟩

/-- The header attachment of the registered CORSMiddleware (third-party
Starlette code, modelled by what the configuration in main.py makes it do
on responses it processes): with "*" among the allowed origins it attaches
the wildcard allow-origin header, and with credentials allowed the
credentials header. -/
def corsMiddleware (cfg : CORSConfig) (resp : HttpResponse) : HttpResponse :=
  let h1 := if cfg.allow_origins.contains "*" then [("Access-Control-Allow-Origin", "*")] else []
  let h2 := if cfg.allow_credentials then [("Access-Control-Allow-Credentials", "true")] else []
  { resp with headers := resp.headers ++ h1 ++ h2 }

/-
Helper lemmas about the string operations the handlers use.
-/

theorem append_ne_empty_left (a b : String) (h : a ≠ "") : a ++ b ≠ "" := by
  intro e
  apply h
  rw [String.ext_iff, String.data_append] at e
  rw [String.ext_iff]
  exact (List.append_eq_nil.mp e).1

theorem append_ne_empty_right (a b : String) (h : b ≠ "") : a ++ b ≠ "" := by
  intro e
  apply h
  rw [String.ext_iff, String.data_append] at e
  rw [String.ext_iff]
  exact (List.append_eq_nil.mp e).2

theorem pyOr_ne_empty (a b : String) (h : b ≠ "") : pyOr a b ≠ "" := by
  unfold pyOr
  by_cases ha : a == ""
  · rw [if_pos ha]; exact h
  · rw [if_neg ha]; exact fun e => ha (by rw [e]; rfl)

/-
Per-handler response invariants, shared by the classifier-wide claims.
-/

theorem integrity_handler_inv (o : Orig) :
    (integrity_error_handler o).status_code = 409 ∧ (integrity_error_handler o).detail ≠ "" := by
  simp only [integrity_error_handler]
  split
  · split
    · exact ⟨rfl, append_ne_empty_right _ _ (by decide)⟩
    · exact ⟨rfl, append_ne_empty_right _ _ (by decide)⟩
  · split
    · exact ⟨rfl, append_ne_empty_right _ _ (by decide)⟩
    · exact ⟨rfl, by decide⟩

theorem data_handler_inv (o : Orig) (r : ClassifiedResponse)
    (h : data_error_handler o = some r) : r.status_code = 422 ∧ r.detail ≠ "" := by
  simp only [data_error_handler] at h
  split at h
  · split at h
    · cases h; exact ⟨rfl, append_ne_empty_right _ _ (by decide)⟩
    · cases h; exact ⟨rfl, append_ne_empty_left _ _ (append_ne_empty_right _ _ (by decide))⟩
  · split at h
    · cases h
    · cases h; exact ⟨rfl, pyOr_ne_empty _ _ (by decide)⟩

theorem operational_handler_inv (o : Orig) (r : ClassifiedResponse)
    (h : operational_error_handler o = some r) : r.status_code = 503 ∧ r.detail ≠ "" := by
  simp only [operational_error_handler] at h
  split at h
  · cases h; exact ⟨rfl, append_ne_empty_left _ _ (by decide)⟩
  · split at h
    · cases h
    · cases h; exact ⟨rfl, append_ne_empty_left _ _ (by decide)⟩

theorem programming_handler_inv (o : Orig) (r : ClassifiedResponse)
    (h : programming_error_handler o = some r) : r.status_code = 500 ∧ r.detail ≠ "" := by
  simp only [programming_error_handler] at h
  split at h
  · cases h
  · split at h
    · split at h
      · cases h
      · cases h; exact ⟨rfl, append_ne_empty_left _ _ (by decide)⟩
    · cases h; exact ⟨rfl, append_ne_empty_left _ _ (by decide)⟩

theorem interface_handler_inv (o : Orig) (r : ClassifiedResponse)
    (h : interface_error_handler o = some r) : r.status_code = 503 ∧ r.detail ≠ "" := by
  simp only [interface_error_handler] at h
  split at h
  · cases h; exact ⟨rfl, append_ne_empty_left _ _ (by decide)⟩
  · split at h
    · cases h
    · cases h; exact ⟨rfl, append_ne_empty_left _ _ (by decide)⟩

/-
Claim theorems.
-/

/-- C1: the error classifier is not total. Each of the database-data,
database-operational, database-programming and database-interface handlers
indexes str(orig).splitlines() at 0; for a fault whose diagnostic payload
is the empty string and carries no structured diagnostics the list is
empty and the handler itself raises IndexError (modelled as none) instead
of returning a ClassifiedResponse. -/
theorem c1_empty_payload_handlers_fault :
    data_error_handler ⟨none, "", ""⟩ = none ∧
    operational_error_handler ⟨none, "", ""⟩ = none ∧
    programming_error_handler ⟨none, "", ""⟩ = none ∧
    interface_error_handler ⟨none, "", ""⟩ = none :=
  ⟨rfl, rfl, rfl, rfl⟩

/-- C6: the generic database handler's response is status 500 with the
generic database-error detail for every rollback outcome; a failing
rollback is only logged and never changes the classified response. -/
theorem c6_rollback_never_changes_response :
    ∀ rb : Except String Unit,
      (database_exception_handler rb).2 =
        ⟨500, "A database error occurred. Please try again later."⟩ ∧
      (database_exception_handler rb).2 = (database_exception_handler (.ok ())).2 :=
  fun _ => ⟨rfl, rfl⟩

/-- C9: every auth-token fault is classified 401; the expired-token fault
yields the expired-specific message, which differs from the message of any
other JWT fault. -/
theorem c9_jwt_faults_401_distinct_messages :
    ∀ expired : Bool,
      (jwt_error_handler expired).status_code = 401 ∧
      (jwt_error_handler true).detail =
        "Authentication token has expired. Please log in again." ∧
      (jwt_error_handler true).detail ≠ (jwt_error_handler false).detail := by
  intro expired
  cases expired <;> exact ⟨rfl, rfl, by decide⟩

/-- C8: every response the gateway produces carries the wildcard
allow-origin header: success responses through the CORS middleware that
main.py registers with all origins allowed, and every classified error
response through json_response_with_cors, which additionally always fixes
the credentials header. -/
theorem c8_cors_headers_on_every_response :
    (∀ resp : HttpResponse,
        ("Access-Control-Allow-Origin", "*") ∈ (corsMiddleware appCORSConfig resp).headers) ∧
    (∀ (content : JValue) (status : Nat),
        ("Access-Control-Allow-Origin", "*") ∈ (json_response_with_cors content status).headers ∧
        ("Access-Control-Allow-Credentials", "true") ∈ (json_response_with_cors content status).headers) := by
  constructor
  · intro resp
    simp [corsMiddleware, appCORSConfig]
  · intro content status
    simp [json_response_with_cors]

/-- C2 counterexample: an upstream 404 on /submit does not propagate 404.
raise_for_status raises httpx's status error, which is not a FastAPI
HTTPException and so reaches the Exception catch-all, yielding 500. -/
theorem c2_counterexample :
    (submit_code 404 JValue.null).status = 500 ∧
    (submit_code 404 JValue.null).status ≠ 404 ∧
    raise_for_status 404 = .error (.httpStatusError 404) ∧
    isHTTPException (.httpStatusError 404) = false :=
  ⟨rfl, by decide, rfl, rfl⟩

/-- C2 amended: for every non-2xx upstream status the /submit route
answers 500 with the generic unexpected-error detail - the httpx status
error raised by raise_for_status reaches the catch-all handler, so the
upstream status is not propagated. -/
theorem c2_non2xx_yields_catchall_500 (st : Nat) (body : JValue)
    (h : ¬(200 ≤ st ∧ st ≤ 299)) :
    submit_code st body =
      ⟨500, detailBody ⟨500, "An unexpected error occurred. Please contact support."⟩⟩ := by
  unfold submit_code raise_for_status
  rw [if_neg h]
  rfl

theorem c2_witness :
    ¬(200 ≤ 503 ∧ (503 : Nat) ≤ 299) ∧
    submit_code 503 JValue.null =
      ⟨500, detailBody ⟨500, "An unexpected error occurred. Please contact support."⟩⟩ :=
  ⟨by decide, c2_non2xx_yields_catchall_500 503 JValue.null (by decide)⟩

/-- C3 counterexample: an integrity fault whose structured diagnostics
supply the column email but whose detail text carries no extractable value
yields the column-specific duplicate message, not the generic fallback the
claim asserts. -/
theorem c3_counterexample :
    searchColVal "email" "no key pattern here" = none ∧
    searchKeyFieldVal "no key pattern here" = none ∧
    integrity_error_handler ⟨some ⟨some "email", none, none⟩, "", "no key pattern here"⟩
      = ⟨409, "Duplicate value for 'email'."⟩ ∧
    ("Duplicate value for 'email'." : String) ≠ "A record with that value already exists." :=
  ⟨rfl, rfl, rfl, by decide⟩

/-- C3 amended: the generic 409 fallback message appears exactly when no
structured column name is supplied and the Key regex finds nothing; when a
structured column is present but no value parses from the detail text, the
handler instead answers 409 with the duplicate-value-for-column message. -/
theorem c3_integrity_fallback_scope :
    (∀ orig : Orig, diagCol? orig = none → searchKeyFieldVal orig.s = none →
      integrity_error_handler orig = ⟨409, "A record with that value already exists."⟩) ∧
    (∀ (orig : Orig) (d : Diag) (col : String), diagCol? orig = some (d, col) →
      searchColVal col (pyOr orig.pgerror orig.s) = none →
      integrity_error_handler orig = ⟨409, "Duplicate value for '" ++ col ++ "'."⟩) := by
  constructor
  · intro orig h1 h2
    simp only [integrity_error_handler, h1, h2]
  · intro orig d col h1 h2
    simp only [integrity_error_handler, h1, h2]

theorem c3_witness :
    integrity_error_handler ⟨none, "", "plain text"⟩
      = ⟨409, "A record with that value already exists."⟩ ∧
    integrity_error_handler ⟨some ⟨some "email", none, none⟩, "", "xyz"⟩
      = ⟨409, "Duplicate value for 'email'."⟩ :=
  ⟨c3_integrity_fallback_scope.1 ⟨none, "", "plain text"⟩ rfl rfl,
   c3_integrity_fallback_scope.2 ⟨some ⟨some "email", none, none⟩, "", "xyz"⟩
     ⟨some "email", none, none⟩ "email" rfl rfl⟩

/-- C4 counterexample: a fault whose diagnostic text contains
Key (email)=(a@b.com) but whose structured diagnostics name a different
column takes the structured branch and yields the duplicate-value message
for that column, not the claimed email message. -/
theorem c4_counterexample :
    searchKeyFieldVal "duplicate key DETAIL:  Key (email)=(a@b.com) already exists."
      = some ("email", "a@b.com") ∧
    integrity_error_handler
        ⟨some ⟨some "username", none, none⟩, "",
          "duplicate key DETAIL:  Key (email)=(a@b.com) already exists."⟩
      = ⟨409, "Duplicate value for 'username'."⟩ ∧
    (⟨409, "Duplicate value for 'username'."⟩ : ClassifiedResponse)
      ≠ ⟨409, "email 'a@b.com' already exists."⟩ :=
  ⟨rfl, rfl, by decide⟩

/-- C4 amended: for every integrity fault with no structured column name
whose diagnostic text's first match of the Key regex is
Key (email)=(a@b.com), the handler answers 409 with detail exactly
"email 'a@b.com' already exists.". -/
theorem c4_email_key_extraction (orig : Orig)
    (h1 : diagCol? orig = none)
    (h2 : searchKeyFieldVal orig.s = some ("email", "a@b.com")) :
    integrity_error_handler orig = ⟨409, "email 'a@b.com' already exists."⟩ := by
  simp only [integrity_error_handler, h1, h2]
  rfl

theorem c4_witness :
    integrity_error_handler
        ⟨none, "", "duplicate key value DETAIL:  Key (email)=(a@b.com) already exists."⟩
      = ⟨409, "email 'a@b.com' already exists."⟩ :=
  c4_email_key_extraction
    ⟨none, "", "duplicate key value DETAIL:  Key (email)=(a@b.com) already exists."⟩
    rfl rfl

/-- C5 counterexample: the http passthrough copies the fault's own status
and detail verbatim, so an HTTPException carrying status 200 and an empty
detail produces a ClassifiedResponse outside [400,599] with empty detail. -/
theorem c5_counterexample :
    classify (Except.ok ()) (Exc.httpException 200 "") = some ⟨200, ""⟩ ∧
    ¬(400 ≤ (200 : Nat) ∧ (200 : Nat) ≤ 599) ∧
    (⟨200, ""⟩ : ClassifiedResponse).detail = "" :=
  ⟨rfl, by decide, rfl⟩

/-- C5 amended: every ClassifiedResponse the classifier produces for a
non-http fault has a status in [400,599] and a nonempty detail; the http
kind passes the fault's own status and detail through verbatim, so its
responses inherit whatever the fault carried, in range or not. -/
theorem c5_classified_response_invariants :
    (∀ (rb : Except String Unit) (e : Exc) (r : ClassifiedResponse),
        classify rb e = some r → isHTTPException e = false →
        400 ≤ r.status_code ∧ r.status_code ≤ 599 ∧ r.detail ≠ "") ∧
    (∀ (rb : Except String Unit) (st : Nat) (d : String),
        classify rb (.httpException st d) = some ⟨st, d⟩) := by
  constructor
  · intro rb e r h hh
    cases e with
    | requestValidation =>
        simp only [classify] at h
        cases h
        exact ⟨by decide, by decide, by decide⟩
    | httpException st d => simp [isHTTPException] at hh
    | integrityError o =>
        simp only [classify] at h
        cases h
        obtain ⟨h9, hd⟩ := integrity_handler_inv o
        exact ⟨by omega, by omega, hd⟩
    | dataError o =>
        simp only [classify] at h
        obtain ⟨h4, hd⟩ := data_handler_inv o r h
        exact ⟨by omega, by omega, hd⟩
    | operationalError o =>
        simp only [classify] at h
        obtain ⟨h5, hd⟩ := operational_handler_inv o r h
        exact ⟨by omega, by omega, hd⟩
    | programmingError o =>
        simp only [classify] at h
        obtain ⟨h5, hd⟩ := programming_handler_inv o r h
        exact ⟨by omega, by omega, hd⟩
    | interfaceError o =>
        simp only [classify] at h
        obtain ⟨h5, hd⟩ := interface_handler_inv o r h
        exact ⟨by omega, by omega, hd⟩
    | sqlalchemyOther o =>
        simp only [classify] at h
        cases h
        have e2 : (database_exception_handler rb).2 =
            ⟨500, "A database error occurred. Please try again later."⟩ := rfl
        rw [e2]
        exact ⟨by decide, by decide, by decide⟩
    | timeoutError =>
        simp only [classify] at h
        cases h
        exact ⟨by decide, by decide, by decide⟩
    | permissionError m =>
        simp only [classify] at h
        cases h
        exact ⟨(by decide : (400 : Nat) ≤ 403), (by decide : (403 : Nat) ≤ 599),
          pyOr_ne_empty _ _ (by decide)⟩
    | jwtError b =>
        simp only [classify] at h
        cases h
        cases b <;> exact ⟨by decide, by decide, by decide⟩
    | jsonDecodeError l c m =>
        simp only [classify] at h
        cases h
        exact ⟨(by decide : (400 : Nat) ≤ 400), (by decide : (400 : Nat) ≤ 599),
          append_ne_empty_left _ _ (append_ne_empty_right _ _ (by decide))⟩
    | valueError m =>
        simp only [classify] at h
        cases h
        exact ⟨(by decide : (400 : Nat) ≤ 400), (by decide : (400 : Nat) ≤ 599),
          pyOr_ne_empty _ _ (by decide)⟩
    | typeError m =>
        simp only [classify] at h
        cases h
        exact ⟨(by decide : (400 : Nat) ≤ 400), (by decide : (400 : Nat) ≤ 599),
          pyOr_ne_empty _ _ (by decide)⟩
    | httpStatusError st =>
        simp only [classify] at h
        cases h
        exact ⟨by decide, by decide, by decide⟩
    | otherException =>
        simp only [classify] at h
        cases h
        exact ⟨by decide, by decide, by decide⟩
  · intro rb st d
    rfl

theorem c5_witness :
    classify (Except.ok ()) Exc.timeoutError =
      some ⟨504, "Request processing timed out. Please try again later."⟩ ∧
    (400 ≤ (504 : Nat) ∧ (504 : Nat) ≤ 599 ∧
      ("Request processing timed out. Please try again later." : String) ≠ "") :=
  ⟨rfl, c5_classified_response_invariants.1 (Except.ok ()) Exc.timeoutError
    ⟨504, "Request processing timed out. Please try again later."⟩ rfl rfl⟩

/-
The /problems lookup: auxiliary lemmas.
-/

theorem lookup_some_truthy (p : JValue) (h : hasId p = true) : pyTruthy p = true := by
  cases p with
  | obj fields =>
    cases fields with
    | nil => exact absurd h (by decide)
    | cons k v rest => rfl
  | null => exact absurd h (by decide)
  | bool b => exact absurd h (by simp [hasId, lookup])
  | num n => exact absurd h (by simp [hasId, lookup])
  | str s => exact absurd h (by simp [hasId, lookup])
  | arr xs => exact absurd h (by simp [hasId, lookup])

theorem idMatches_hasId (pid : Int) (p : JValue) (h : idMatches pid p = true) :
    hasId p = true := by
  unfold idMatches at h
  unfold hasId
  rcases hl : lookup p "id" with _ | v
  · rw [hl] at h; cases h
  · rfl

theorem findProblem_no_match (pid : Int) :
    ∀ problems : List JValue, problems.all hasId = true →
      problems.all (fun p => !idMatches pid p) = true →
      findProblem pid problems = .ok none := by
  intro problems
  induction problems with
  | nil => intro _ _; rfl
  | cons p ps ih =>
    intro h1 h2
    rw [List.all_cons, Bool.and_eq_true] at h1 h2
    rcases hl : lookup p "id" with _ | v
    · exact absurd h1.1 (by simp [hasId, hl])
    · have hm : pyEqInt v pid = false := by
        have h2a := h2.1
        rw [Bool.not_eq_eq_eq_not, Bool.not_true] at h2a
        simpa [idMatches, hl] using h2a
      simp only [findProblem, hl, hm]
      simp only [Bool.false_eq_true, if_false]
      exact ih h1.2 h2.2

theorem findProblem_eq_find (pid : Int) :
    ∀ problems : List JValue, problems.all hasId = true →
      findProblem pid problems = .ok (problems.find? (idMatches pid)) := by
  intro problems
  induction problems with
  | nil => intro _; rfl
  | cons p ps ih =>
    intro h
    rw [List.all_cons, Bool.and_eq_true] at h
    rcases hl : lookup p "id" with _ | v
    · exact absurd h.1 (by simp [hasId, hl])
    · simp only [findProblem, hl]
      by_cases hm : pyEqInt v pid = true
      · rw [if_pos hm, List.find?_cons_of_pos _ (by simp [idMatches, hl, hm])]
      · rw [if_neg hm,
          List.find?_cons_of_neg _ (by simp [idMatches, hl]; exact Bool.not_eq_true _ ▸ hm)]
        exact ih h.2

/-- C7: a problem_id matching no record yields status 200 with exactly the
not-found error body, never 404, for every problem list whose records all
carry an id field (as the spec's ProblemRecord shape requires). -/
theorem c7_unknown_id_returns_200_not_found (problems : List JValue) (pid : Int)
    (hwf : problems.all hasId = true)
    (hno : problems.all (fun p => !idMatches pid p) = true) :
    get_problem problems pid = ⟨200, problemNotFoundBody⟩ ∧
    (get_problem problems pid).status ≠ 404 := by
  have hf := findProblem_no_match pid problems hwf hno
  have hg : get_problem problems pid = ⟨200, problemNotFoundBody⟩ := by
    simp only [get_problem, hf]
  exact ⟨hg, by rw [hg]; decide⟩

/-- The two sample records the witnesses instantiate the lookup claims on. -/
def sampleProblems : List JValue :=
  [.obj (.cons "id" (.num 1) (.cons "title" (.str "Two Sum") .nil)),
   .obj (.cons "id" (.num 2) .nil)]

theorem c7_witness :
    (sampleProblems.all hasId = true) ∧
    (sampleProblems.all (fun p => !idMatches 999999 p) = true) ∧
    get_problem sampleProblems 999999 = ⟨200, problemNotFoundBody⟩ ∧
    (get_problem sampleProblems 999999).status ≠ 404 :=
  ⟨by decide, by decide,
    c7_unknown_id_returns_200_not_found sampleProblems 999999 (by decide) (by decide)⟩

/-- C10 counterexample: with a record lacking an id field ahead of the
first (truthy) matching record, the lookup does not return that match: the
subscript raises KeyError, the catch-all classifies it, and the client
receives 500 with the generic detail - neither the matching record (as the
claim's first half requires) nor the not-found body. -/
theorem c10_counterexample :
    idMatches 1 (JValue.obj (.cons "id" (.num 1) .nil)) = true ∧
    get_problem [JValue.obj .nil, JValue.obj (.cons "id" (.num 1) .nil)] 1
      = ⟨500, detailBody ⟨500, "An unexpected error occurred. Please contact support."⟩⟩ ∧
    (500 : Nat) ≠ 200 :=
  ⟨rfl, rfl, by decide⟩

/-- C10 amended: for every problem list whose records all carry an id
field, the lookup returns the first record in file order whose id equals
problem_id, or the not-found body when none matches, always with status
200; and the falsy-match case the claim describes cannot occur, because
every record that matches carries an id binding and is therefore a
nonempty object, which Python treats as truthy. -/
theorem c10_first_match_or_not_found (problems : List JValue) (pid : Int)
    (hwf : problems.all hasId = true) :
    get_problem problems pid =
      (match problems.find? (idMatches pid) with
       | some p => ⟨200, p⟩
       | none => ⟨200, problemNotFoundBody⟩) ∧
    (∀ p : JValue, idMatches pid p = true → pyTruthy p = true) := by
  constructor
  · have hf := findProblem_eq_find pid problems hwf
    rcases hq : problems.find? (idMatches pid) with _ | p
    · rw [hq] at hf
      simp only [get_problem, hf]
    · rw [hq] at hf
      have ht : pyTruthy p = true :=
        lookup_some_truthy p (idMatches_hasId pid p (List.find?_some hq))
      simp only [get_problem, hf, ht, if_true]
  · intro p h
    exact lookup_some_truthy p (idMatches_hasId pid p h)

theorem c10_witness :
    get_problem sampleProblems 2 =
      (match sampleProblems.find? (idMatches 2) with
       | some p => ⟨200, p⟩
       | none => ⟨200, problemNotFoundBody⟩) ∧
    (∀ p : JValue, idMatches 2 p = true → pyTruthy p = true) :=
  c10_first_match_or_not_found sampleProblems 2 (by decide)

end CodeArena
